import Mathlib

/-!
Verification of the predictive-maintenance simulator core.

The development embeds `src/config.py`, the `MachineSim` state machine of
`src/data_generator.py`, and the ground-truth label function `label_point`
of `src/model.py` over the rationals.  Randomness is made explicit: every
call to `update` consumes a record of draw values, and `validDraws`
records the interval each draw is sampled from (uniform floats become
rationals in the closed interval, `random.randint(1, 5)` a natural number
in `[1, 5]`, `random.random()` a rational in `[0, 1)`, `random.choice`
over the four fault kinds an arbitrary `FaultType`).
-/

namespace PredMaint

/-! ### Threshold configuration (`src/config.py`) -/

def TEMP_WARN : ℚ := 85
def TEMP_FAIL : ℚ := 100
def VIB_WARN : ℚ := 6
def VIB_FAIL : ℚ := 12
def PRESS_WARN_LOW : ℚ := 90
def PRESS_WARN_HIGH : ℚ := 160
def PRESS_FAIL_LOW : ℚ := 80
def PRESS_FAIL_HIGH : ℚ := 170
def CYCLES_WARN : ℚ := 800
def CYCLES_FAIL : ℚ := 1200

/-! ### Ground-truth label function (`src/model.py`, `label_point`) -/

def label_point (temp vib press cycles : ℚ) : ℕ :=
  if TEMP_FAIL ≤ temp ∨ VIB_FAIL ≤ vib ∨
     press ≤ PRESS_FAIL_LOW ∨ PRESS_FAIL_HIGH ≤ press ∨
     CYCLES_FAIL ≤ cycles then 2
  else if TEMP_WARN ≤ temp ∨ VIB_WARN ≤ vib ∨
     press ≤ PRESS_WARN_LOW ∨ PRESS_WARN_HIGH ≤ press ∨
     CYCLES_WARN ≤ cycles then 1
  else 0

/-! ### Simulator state (`src/data_generator.py`, `MachineSim`) -/

inductive FaultType where
  | temp
  | vibration
  | pressureHigh
  | pressureLow
  deriving DecidableEq, Repr

structure MachineState where
  id : ℕ
  temp : ℚ
  vib : ℚ
  press : ℚ
  cycles : ℚ
  state : ℕ
  fault_type : Option FaultType
  fail_time : ℕ
  degrade_time : ℕ
  deriving DecidableEq, Repr

/-- One record of the random draws a single `update` call may consume.
`cInc` is `random.randint(1, 5)`; `nTemp`/`nVib`/`nPress` the normal-state
noise; `rTrigger` the `random.random()` sample compared with `0.02`;
`faultChoice` the `random.choice` over fault kinds; `gTemp`/`gVib`/`gPress`
the degrading-state drifts (with `gPress` the subtracted amount for a
pressure-low fault); `fTemp`/`fVib`/`fPress` the failure-state drifts
(`fPress` subtracted for a pressure-low fault); `mTemp`/`mVib`/`mPress` the
baseline values redrawn on maintenance. -/
structure Draws where
  cInc : ℕ
  nTemp : ℚ
  nVib : ℚ
  nPress : ℚ
  rTrigger : ℚ
  faultChoice : FaultType
  gTemp : ℚ
  gVib : ℚ
  gPress : ℚ
  fTemp : ℚ
  fVib : ℚ
  fPress : ℚ
  mTemp : ℚ
  mVib : ℚ
  mPress : ℚ
  deriving DecidableEq, Repr

/-- Floor at zero: `if x < 0: x = 0.0` -/
def clamp0 (x : ℚ) : ℚ := if x < 0 then 0 else x

/-- Forcing of temperature on a temp fault:
`self.temp = max(self.temp, config.TEMP_WARN + 5.0)`. -/
def forceTemp (ft : FaultType) (t : ℚ) : ℚ :=
  if ft = FaultType.temp then max t (TEMP_WARN + 5) else t

/-- Forcing of vibration on a vibration fault:
`self.vib = max(self.vib, config.VIB_WARN + 1.0)`. -/
def forceVib (ft : FaultType) (v : ℚ) : ℚ :=
  if ft = FaultType.vibration then max v (VIB_WARN + 1) else v

/-- Forcing of pressure on a pressure-high / pressure-low fault. -/
def forcePress (ft : FaultType) (p : ℚ) : ℚ :=
  if ft = FaultType.pressureHigh then max p (PRESS_WARN_HIGH + 5)
  else if ft = FaultType.pressureLow then min p (PRESS_WARN_LOW - 5)
  else p

/-- Degrading-state temperature drift: every fault branch adds its drawn
temperature increment; no branch runs when `fault_type` is `None`. -/
def degTemp (ft : Option FaultType) (t g : ℚ) : ℚ :=
  match ft with
  | some _ => t + g
  | none => t

/-- Degrading-state vibration drift (additive in every fault branch). -/
def degVib (ft : Option FaultType) (v g : ℚ) : ℚ :=
  match ft with
  | some _ => v + g
  | none => v

/-- Degrading-state pressure drift: a pressure-low fault subtracts the
draw and re-floors at 0, every other fault adds its draw. -/
def degPress (ft : Option FaultType) (p g : ℚ) : ℚ :=
  match ft with
  | some FaultType.pressureLow => clamp0 (p - g)
  | some _ => p + g
  | none => p

/-- Failure-state pressure drift: keeps dropping (floored at 0) on a
pressure-low fault, otherwise fluctuates upward. -/
def failPress (ft : Option FaultType) (p f : ℚ) : ℚ :=
  if ft = some FaultType.pressureLow then clamp0 (p - f) else p + f

/-- Normal-state branch of `MachineSim.update` (`self.state == 0`):
noise plus clamping, then the trigger check (`cycles >= CYCLES_WARN` or a
2% random fault), on trigger the entry into the warning state with the
chosen fault metric forced, and the escalation to state 2 when
`cycles >= CYCLES_FAIL`. -/
def stepNormal (s : MachineState) (d : Draws) : MachineState :=
  if CYCLES_WARN ≤ s.cycles + (d.cInc : ℚ) ∨ d.rTrigger < 1/50 then
    if CYCLES_FAIL ≤ s.cycles + (d.cInc : ℚ) then
      { id := s.id,
        temp := forceTemp d.faultChoice (s.temp + d.nTemp),
        vib := forceVib d.faultChoice (clamp0 (s.vib + d.nVib)),
        press := forcePress d.faultChoice (clamp0 (s.press + d.nPress)),
        cycles := s.cycles + (d.cInc : ℚ), state := 2,
        fault_type := some d.faultChoice, fail_time := 0, degrade_time := 0 }
    else
      { id := s.id,
        temp := forceTemp d.faultChoice (s.temp + d.nTemp),
        vib := forceVib d.faultChoice (clamp0 (s.vib + d.nVib)),
        press := forcePress d.faultChoice (clamp0 (s.press + d.nPress)),
        cycles := s.cycles + (d.cInc : ℚ), state := 1,
        fault_type := some d.faultChoice, fail_time := s.fail_time,
        degrade_time := 0 }
  else
    { id := s.id, temp := s.temp + d.nTemp,
      vib := clamp0 (s.vib + d.nVib), press := clamp0 (s.press + d.nPress),
      cycles := s.cycles + (d.cInc : ℚ), state := s.state,
      fault_type := s.fault_type, fail_time := s.fail_time,
      degrade_time := s.degrade_time }

/-- Degrading-state branch of `MachineSim.update` (`self.state == 1`):
fault-specific drift, then the failure check on the drifted metrics, the
incremented cycles and the incremented duration counter. -/
def stepDegrading (s : MachineState) (d : Draws) : MachineState :=
  if TEMP_FAIL ≤ degTemp s.fault_type s.temp d.gTemp ∨
     VIB_FAIL ≤ degVib s.fault_type s.vib d.gVib ∨
     PRESS_FAIL_HIGH ≤ degPress s.fault_type s.press d.gPress ∨
     degPress s.fault_type s.press d.gPress ≤ PRESS_FAIL_LOW ∨
     CYCLES_FAIL ≤ s.cycles + (d.cInc : ℚ) ∨ 5 ≤ s.degrade_time + 1 then
    { id := s.id,
      temp := degTemp s.fault_type s.temp d.gTemp,
      vib := degVib s.fault_type s.vib d.gVib,
      press := degPress s.fault_type s.press d.gPress,
      cycles := s.cycles + (d.cInc : ℚ), state := 2,
      fault_type := s.fault_type, fail_time := 0,
      degrade_time := s.degrade_time + 1 }
  else
    { id := s.id,
      temp := degTemp s.fault_type s.temp d.gTemp,
      vib := degVib s.fault_type s.vib d.gVib,
      press := degPress s.fault_type s.press d.gPress,
      cycles := s.cycles + (d.cInc : ℚ), state := s.state,
      fault_type := s.fault_type, fail_time := s.fail_time,
      degrade_time := s.degrade_time + 1 }

/-- Failure-predicted branch of `MachineSim.update` (`self.state == 2`):
adverse drift, then maintenance (a full reset to redrawn baselines) once
`fail_time >= 5` or `cycles >= CYCLES_FAIL + 100`. -/
def stepFailure (s : MachineState) (d : Draws) : MachineState :=
  if 5 ≤ s.fail_time + 1 ∨ CYCLES_FAIL + 100 ≤ s.cycles + (d.cInc : ℚ) then
    { id := s.id, temp := d.mTemp, vib := d.mVib, press := d.mPress,
      cycles := 0, state := 0, fault_type := none, fail_time := 0,
      degrade_time := 0 }
  else
    { id := s.id, temp := s.temp + d.fTemp, vib := s.vib + d.fVib,
      press := failPress s.fault_type s.press d.fPress,
      cycles := s.cycles + (d.cInc : ℚ), state := s.state,
      fault_type := s.fault_type, fail_time := s.fail_time + 1,
      degrade_time := s.degrade_time }

/-- The full `MachineSim.update`: dispatch on the discrete state.  A state outside
`{0, 1, 2}` matches no branch of the Python code, so nothing changes. -/
def update (s : MachineState) (d : Draws) : MachineState :=
  if s.state = 0 then stepNormal s d
  else if s.state = 1 then stepDegrading s d
  else if s.state = 2 then stepFailure s d
  else s

/-- The reading 4-tuple returned by `update`. -/
def reading (s : MachineState) : ℚ × ℚ × ℚ × ℚ :=
  (s.temp, s.vib, s.press, s.cycles)

/-- Interval check used to describe the random draws. -/
def inRange (x a b : ℚ) : Bool :=
  decide (a ≤ x) && decide (x ≤ b)

/-- Which draw records the Python RNG can actually produce for one `update`
call from state `s`: each consumed sample lies in the interval of the
distribution it is drawn from.  Samples the branch does not consume are
still constrained to their distribution's range where one exists; this
loses no generality since they do not influence the step. -/
def validDraws (s : MachineState) (d : Draws) : Bool :=
  (decide (1 ≤ d.cInc) && decide (d.cInc ≤ 5)) &&
  (if s.state = 0 then
    inRange d.nTemp (-1) 1 && inRange d.nVib (-(1/5)) (1/5) &&
    inRange d.nPress (-2) 2 && (decide (0 ≤ d.rTrigger) && decide (d.rTrigger < 1))
  else if s.state = 1 then
    match s.fault_type with
    | some FaultType.temp =>
        inRange d.gTemp 1 3 && inRange d.gVib 0 (1/2) && inRange d.gPress (-1) 1
    | some FaultType.vibration =>
        inRange d.gTemp 0 1 && inRange d.gVib (1/2) (3/2) && inRange d.gPress (-1) 1
    | some FaultType.pressureHigh =>
        inRange d.gTemp 0 1 && inRange d.gVib 0 (3/10) && inRange d.gPress 2 5
    | some FaultType.pressureLow =>
        inRange d.gTemp (-(1/2)) (1/2) && inRange d.gVib (-(1/10)) (1/2) && inRange d.gPress 2 5
    | none => true
  else if s.state = 2 then
    inRange d.fTemp 0 1 && inRange d.fVib 0 (1/2) &&
    (if s.fault_type = some FaultType.pressureLow then inRange d.fPress 0 1
     else inRange d.fPress 0 2) &&
    inRange d.mTemp 60 75 && inRange d.mVib 1 3 && inRange d.mPress 110 130
  else true)

/-- Run a sequence of `update` calls. -/
def run (s : MachineState) : List Draws → MachineState
  | [] => s
  | d :: ds => run (update s d) ds

/-- All draws along a run are producible by the RNG. -/
def validRun (s : MachineState) : List Draws → Bool
  | [] => true
  | d :: ds => validDraws s d && validRun (update s d) ds

/-- States produced by `MachineSim.__init__`: baseline metric ranges,
zero cycles, Normal state, no fault, zeroed duration counters. -/
def IsInit (s : MachineState) : Prop :=
  60 ≤ s.temp ∧ s.temp ≤ 75 ∧ 1 ≤ s.vib ∧ s.vib ≤ 3 ∧
  110 ≤ s.press ∧ s.press ≤ 130 ∧ s.cycles = 0 ∧ s.state = 0 ∧
  s.fault_type = none ∧ s.fail_time = 0 ∧ s.degrade_time = 0

instance (s : MachineState) : Decidable (IsInit s) := by
  unfold IsInit; infer_instance

/-- States reachable from construction by valid `update` calls. -/
inductive Reachable : MachineState → Prop where
  | init : ∀ s, IsInit s → Reachable s
  | step : ∀ s d, Reachable s → validDraws s d = true → Reachable (update s d)

/-! ### Claim theorems -/

/-- Failure condition of `label_point` (class 2). -/
def failCond (temp vib press cycles : ℚ) : Prop :=
  TEMP_FAIL ≤ temp ∨ VIB_FAIL ≤ vib ∨
  press ≤ PRESS_FAIL_LOW ∨ PRESS_FAIL_HIGH ≤ press ∨ CYCLES_FAIL ≤ cycles

/-- Warning condition of `label_point` (class 1). -/
def warnCond (temp vib press cycles : ℚ) : Prop :=
  TEMP_WARN ≤ temp ∨ VIB_WARN ≤ vib ∨
  press ≤ PRESS_WARN_LOW ∨ PRESS_WARN_HIGH ≤ press ∨ CYCLES_WARN ≤ cycles

/-- C1: `label_point` is a pure function of the reading vector returning 2
exactly when a fail bound is crossed adversely, 1 exactly when no fail bound
but a warn bound is crossed, and 0 otherwise; with `TEMP_WARN = 85` and
`TEMP_FAIL = 100` it returns 0 on `(70, 2, 120, 10)`, 1 on `(90, 2, 120, 10)`
and 2 on `(105, 2, 120, 10)`. -/
theorem C1_label_point_spec :
    TEMP_WARN = 85 ∧ TEMP_FAIL = 100 ∧
    (∀ temp vib press cycles : ℚ,
      (label_point temp vib press cycles = 2 ↔ failCond temp vib press cycles) ∧
      (label_point temp vib press cycles = 1 ↔
        ¬ failCond temp vib press cycles ∧ warnCond temp vib press cycles) ∧
      (label_point temp vib press cycles = 0 ↔
        ¬ failCond temp vib press cycles ∧ ¬ warnCond temp vib press cycles)) ∧
    label_point 70 2 120 10 = 0 ∧ label_point 90 2 120 10 = 1 ∧
    label_point 105 2 120 10 = 2 := by
  have hgen : ∀ temp vib press cycles : ℚ,
      (label_point temp vib press cycles = 2 ↔ failCond temp vib press cycles) ∧
      (label_point temp vib press cycles = 1 ↔
        ¬ failCond temp vib press cycles ∧ warnCond temp vib press cycles) ∧
      (label_point temp vib press cycles = 0 ↔
        ¬ failCond temp vib press cycles ∧ ¬ warnCond temp vib press cycles) := by
    intro temp vib press cycles
    unfold label_point failCond warnCond
    split_ifs with h1 h2 <;> simp_all
  refine ⟨rfl, rfl, hgen, ?_, ?_, ?_⟩
  · exact ((hgen 70 2 120 10).2.2).mpr (by norm_num [failCond, warnCond, TEMP_FAIL, VIB_FAIL,
      PRESS_FAIL_LOW, PRESS_FAIL_HIGH, CYCLES_FAIL, TEMP_WARN, VIB_WARN,
      PRESS_WARN_LOW, PRESS_WARN_HIGH, CYCLES_WARN])
  · exact ((hgen 90 2 120 10).2.1).mpr (by norm_num [failCond, warnCond,
      TEMP_FAIL, VIB_FAIL, PRESS_FAIL_LOW, PRESS_FAIL_HIGH, CYCLES_FAIL,
      TEMP_WARN, VIB_WARN, PRESS_WARN_LOW, PRESS_WARN_HIGH, CYCLES_WARN])
  · exact ((hgen 105 2 120 10).1).mpr (by norm_num [failCond, TEMP_FAIL,
      VIB_FAIL, PRESS_FAIL_LOW, PRESS_FAIL_HIGH, CYCLES_FAIL])

theorem reachable_run (s : MachineState) (ds : List Draws) (hs : Reachable s)
    (hv : validRun s ds = true) : Reachable (run s ds) := by
  induction ds generalizing s with
  | nil => exact hs
  | cons d ds ih =>
    simp only [validRun, Bool.and_eq_true] at hv
    exact ih _ (Reachable.step s d hs hv.1) hv.2

/-- A freshly constructed machine used for the C2 counterexample trace. -/
def cexInit : MachineState :=
  { id := 1, temp := 70, vib := 1, press := 110, cycles := 0, state := 0,
    fault_type := none, fail_time := 0, degrade_time := 0 }

/-- A quiet Normal-state draw whose vibration noise is the extreme `-0.2`. -/
def cexNoise : Draws :=
  { cInc := 1, nTemp := 0, nVib := -(1/5), nPress := 0, rTrigger := 1/2,
    faultChoice := FaultType.temp, gTemp := 0, gVib := 0, gPress := 0,
    fTemp := 0, fVib := 0, fPress := 0, mTemp := 60, mVib := 1, mPress := 110 }

/-- A draw whose 2% random trigger fires and chooses a pressure-low fault. -/
def cexTrigger : Draws :=
  { cexNoise with nVib := 0, rTrigger := 0, faultChoice := FaultType.pressureLow }

/-- Five quiet steps driving vibration from 1 down to 0, then the trigger. -/
def cexList : List Draws :=
  [cexNoise, cexNoise, cexNoise, cexNoise, cexNoise, cexTrigger]

/-- The reachable Degrading state with vibration 0 and a pressure-low fault. -/
def cexPre : MachineState := run cexInit cexList

/-- A Degrading-state draw with the extreme vibration drift `-0.1`. -/
def cexDrift : Draws := { cexNoise with gVib := -(1/10), gPress := 2 }

theorem cexPre_eq : cexPre =
    { id := 1, temp := 70, vib := 0, press := 85, cycles := 6, state := 1,
      fault_type := some FaultType.pressureLow, fail_time := 0, degrade_time := 0 } := by
  norm_num [cexPre, cexList, run, update, stepNormal, forceTemp, forceVib,
    forcePress, clamp0, cexInit, cexNoise, cexTrigger,
    CYCLES_WARN, CYCLES_FAIL, TEMP_WARN, VIB_WARN, PRESS_WARN_HIGH, PRESS_WARN_LOW]
  exact ⟨by decide, by decide, by decide⟩

/-- C2 is false on the code: from a reachable Degrading state with a
pressure-low fault and vibration 0, the (unclamped) vibration drift
`U(-0.1, 0.5)` can draw `-0.1`, leaving vibration negative after
`update`. -/
theorem C2_counterexample :
    Reachable cexPre ∧ validDraws cexPre cexDrift = true ∧
      (update cexPre cexDrift).vib < 0 := by
  refine ⟨reachable_run cexInit cexList (Reachable.init _ ?_) ?_, ?_, ?_⟩
  · norm_num [IsInit, cexInit]
  · norm_num [validRun, validDraws, inRange, run, update, stepNormal, forceTemp,
      forceVib, forcePress, clamp0, cexInit, cexNoise, cexTrigger, cexList,
      CYCLES_WARN, CYCLES_FAIL, TEMP_WARN, VIB_WARN, PRESS_WARN_HIGH, PRESS_WARN_LOW]
  · rw [cexPre_eq]
    norm_num [validDraws, inRange, cexDrift, cexNoise]
  · rw [cexPre_eq]
    norm_num [update, stepDegrading, degTemp, degVib, degPress, clamp0, cexDrift,
      cexNoise, CYCLES_FAIL, TEMP_FAIL, VIB_FAIL, PRESS_FAIL_HIGH, PRESS_FAIL_LOW]

/-- C2 (amended): vibration and pressure are clamped at 0 only by the
Normal-state branch, so after every `update` call made from the Normal
state both `vibration ≥ 0` and `pressure ≥ 0` hold; a Degrading-state call
applies unclamped secondary drifts and can leave them negative. -/
theorem clamp0_nonneg (x : ℚ) : 0 ≤ clamp0 x := by
  unfold clamp0; split <;> linarith

theorem forceVib_nonneg (ft : FaultType) (v : ℚ) (h : 0 ≤ v) :
    0 ≤ forceVib ft v := by
  unfold forceVib; split
  · exact le_max_of_le_left h
  · exact h

theorem forcePress_nonneg (ft : FaultType) (p : ℚ) (h : 0 ≤ p) :
    0 ≤ forcePress ft p := by
  unfold forcePress; split_ifs
  · exact le_max_of_le_left h
  · exact le_min h (by norm_num [PRESS_WARN_LOW])
  · exact h

theorem C2_normal_step_nonneg (s : MachineState) (d : Draws)
    (hs : s.state = 0) (_hd : validDraws s d = true) :
    0 ≤ (update s d).vib ∧ 0 ≤ (update s d).press := by
  unfold update stepNormal
  rw [if_pos hs]
  constructor
  · split
    · split <;> exact forceVib_nonneg _ _ (clamp0_nonneg _)
    · exact clamp0_nonneg _
  · split
    · split <;> exact forcePress_nonneg _ _ (clamp0_nonneg _)
    · exact clamp0_nonneg _

/-- Witness for `C2_normal_step_nonneg` at a concrete Normal state. -/
theorem C2_normal_step_nonneg_witness :
    0 ≤ (update cexInit cexNoise).vib ∧ 0 ≤ (update cexInit cexNoise).press :=
  C2_normal_step_nonneg cexInit cexNoise rfl (by
    norm_num [validDraws, inRange, cexInit, cexNoise])

/-- C3: for every reachable simulator state, `fault_type` is `None` exactly
when the health state is Normal (`state == 0`). -/
theorem C3_fault_iff_normal (s : MachineState) (h : Reachable s) :
    s.fault_type = none ↔ s.state = 0 := by
  induction h with
  | init s hs =>
    obtain ⟨_, _, _, _, _, _, _, h8, h9, _, _⟩ := hs
    simp [h8, h9]
  | step s d hs hv ih =>
    clear hv hs
    unfold update stepNormal stepDegrading stepFailure
    split_ifs <;> simp_all

/-- Witness for `C3_fault_iff_normal` at a concrete constructed state. -/
theorem C3_fault_iff_normal_witness :
    cexInit.fault_type = none ↔ cexInit.state = 0 :=
  C3_fault_iff_normal cexInit (Reachable.init _ (by norm_num [IsInit, cexInit]))

/-- A Degrading-state step either escalates to state 2 or stays in state 1
with `degrade_time` incremented. -/
theorem deg_step (s : MachineState) (d : Draws) (h1 : s.state = 1) :
    (update s d).state = 2 ∨
      ((update s d).state = 1 ∧ (update s d).degrade_time = s.degrade_time + 1) := by
  unfold update
  rw [if_neg (by rw [h1]; decide), if_pos h1]
  unfold stepDegrading
  split
  · left; rfl
  · right; exact ⟨h1, rfl⟩

/-- A Degrading-state step taken with `degrade_time >= 4` always escalates:
the incremented counter hits the hard timeout `degrade_time >= 5`. -/
theorem deg_timeout (s : MachineState) (d : Draws) (h1 : s.state = 1)
    (h4 : 4 ≤ s.degrade_time) : (update s d).state = 2 := by
  have h5 : (5:ℕ) ≤ s.degrade_time + 1 := by omega
  unfold update
  rw [if_neg (by rw [h1]; decide), if_pos h1]
  unfold stepDegrading
  rw [if_pos (by right; right; right; right; right; exact h5)]

/-- C4: a simulator entering Degrading (`state = 1`, `degrade_time = 0`)
reaches FailurePredicted within at most 5 `update` calls, for every sequence
of valid random draws; and any Degrading step with `degrade_time >= 4`
already ends in state 2. -/
theorem C4_degrading_timeout (s : MachineState) (ds : List Draws)
    (h1 : s.state = 1) (h0 : s.degrade_time = 0) (hlen : ds.length = 5)
    (_hv : validRun s ds = true) :
    (∃ k, k ≤ 5 ∧ (run s (List.take k ds)).state = 2) ∧
      (∀ s2 : MachineState, ∀ d2 : Draws, s2.state = 1 → 4 ≤ s2.degrade_time →
        (update s2 d2).state = 2) := by
  refine ⟨?_, fun s2 d2 h h4 => deg_timeout s2 d2 h h4⟩
  rcases ds with _ | ⟨d1, _ | ⟨d2, _ | ⟨d3, _ | ⟨d4, _ | ⟨d5, _ | ⟨d6, rest⟩⟩⟩⟩⟩⟩ <;>
      simp only [List.length] at hlen <;> try omega
  rcases deg_step s d1 h1 with h | ⟨ha1, hb1⟩
  · exact ⟨1, by omega, by simpa [run] using h⟩
  · rcases deg_step _ d2 ha1 with h | ⟨ha2, hb2⟩
    · exact ⟨2, by omega, by simpa [run] using h⟩
    · rcases deg_step _ d3 ha2 with h | ⟨ha3, hb3⟩
      · exact ⟨3, by omega, by simpa [run] using h⟩
      · rcases deg_step _ d4 ha3 with h | ⟨ha4, hb4⟩
        · exact ⟨4, by omega, by simpa [run] using h⟩
        · refine ⟨5, le_refl 5, ?_⟩
          have hdt : (update (update (update (update s d1) d2) d3) d4).degrade_time = 4 := by
            rw [hb4, hb3, hb2, hb1, h0]
          have := deg_timeout _ d5 ha4 (by omega)
          simpa [run] using this

/-- A Degrading machine with a temperature fault, used as C4's witness. -/
def c4State : MachineState :=
  { id := 1, temp := 90, vib := 2, press := 120, cycles := 10, state := 1,
    fault_type := some FaultType.temp, fail_time := 0, degrade_time := 0 }

/-- A valid temperature-fault drift draw. -/
def c4Draw : Draws :=
  { cInc := 1, nTemp := 0, nVib := 0, nPress := 0, rTrigger := 1/2,
    faultChoice := FaultType.temp, gTemp := 1, gVib := 0, gPress := 0,
    fTemp := 0, fVib := 0, fPress := 0, mTemp := 60, mVib := 1, mPress := 110 }

def c4List : List Draws := [c4Draw, c4Draw, c4Draw, c4Draw, c4Draw]

/-- Witness for `C4_degrading_timeout` on a concrete 5-step valid run. -/
theorem C4_degrading_timeout_witness :
    (∃ k, k ≤ 5 ∧ (run c4State (List.take k c4List)).state = 2) ∧
      (∀ s2 : MachineState, ∀ d2 : Draws, s2.state = 1 → 4 ≤ s2.degrade_time →
        (update s2 d2).state = 2) :=
  C4_degrading_timeout c4State c4List rfl rfl rfl (by
    norm_num [validRun, validDraws, inRange, run, update, stepDegrading, degTemp,
      degVib, degPress, clamp0, c4State, c4List, c4Draw, CYCLES_FAIL, TEMP_FAIL,
      VIB_FAIL, PRESS_FAIL_HIGH, PRESS_FAIL_LOW])

/-- C5: in FailurePredicted, an `update` whose incremented `fail_time`
reaches 5 or whose incremented cycles reach `CYCLES_FAIL + 100` performs the
full maintenance reset (state 0, cycles 0, no fault, zeroed counters,
metrics redrawn from the construction baselines); otherwise the state stays
FailurePredicted. -/
theorem C5_maintenance_reset (s : MachineState) (d : Draws)
    (hs : s.state = 2) (hd : validDraws s d = true) :
    ((5 ≤ s.fail_time + 1 ∨ CYCLES_FAIL + 100 ≤ s.cycles + (d.cInc : ℚ)) →
      (update s d).state = 0 ∧ (update s d).cycles = 0 ∧
      (update s d).fault_type = none ∧ (update s d).degrade_time = 0 ∧
      (update s d).fail_time = 0 ∧
      60 ≤ (update s d).temp ∧ (update s d).temp ≤ 75 ∧
      1 ≤ (update s d).vib ∧ (update s d).vib ≤ 3 ∧
      110 ≤ (update s d).press ∧ (update s d).press ≤ 130) ∧
    (¬ (5 ≤ s.fail_time + 1 ∨ CYCLES_FAIL + 100 ≤ s.cycles + (d.cInc : ℚ)) →
      (update s d).state = 2) := by
  norm_num [validDraws, inRange, hs, Bool.and_eq_true, decide_eq_true_eq] at hd
  unfold update
  rw [if_neg (by rw [hs]; decide), if_neg (by rw [hs]; decide), if_pos hs]
  unfold stepFailure
  constructor
  · intro hc
    rw [if_pos hc]
    refine ⟨rfl, rfl, rfl, rfl, rfl, ?_, ?_, ?_, ?_, ?_, ?_⟩ <;> tauto
  · intro hc
    rw [if_neg hc]
    exact hs

/-- A FailurePredicted machine one step short of maintenance. -/
def c5State : MachineState :=
  { id := 1, temp := 101, vib := 12, press := 120, cycles := 50, state := 2,
    fault_type := some FaultType.temp, fail_time := 4, degrade_time := 0 }

/-- A valid failure-state draw (with baseline redraw values). -/
def c5Draw : Draws :=
  { cInc := 1, nTemp := 0, nVib := 0, nPress := 0, rTrigger := 1/2,
    faultChoice := FaultType.temp, gTemp := 1, gVib := 0, gPress := 0,
    fTemp := 0, fVib := 0, fPress := 0, mTemp := 60, mVib := 1, mPress := 110 }

/-- Witness for `C5_maintenance_reset` at a concrete reset step. -/
theorem C5_maintenance_reset_witness :
    ((5 ≤ c5State.fail_time + 1 ∨
        CYCLES_FAIL + 100 ≤ c5State.cycles + (c5Draw.cInc : ℚ)) →
      (update c5State c5Draw).state = 0 ∧ (update c5State c5Draw).cycles = 0 ∧
      (update c5State c5Draw).fault_type = none ∧
      (update c5State c5Draw).degrade_time = 0 ∧
      (update c5State c5Draw).fail_time = 0 ∧
      60 ≤ (update c5State c5Draw).temp ∧ (update c5State c5Draw).temp ≤ 75 ∧
      1 ≤ (update c5State c5Draw).vib ∧ (update c5State c5Draw).vib ≤ 3 ∧
      110 ≤ (update c5State c5Draw).press ∧
        (update c5State c5Draw).press ≤ 130) ∧
    (¬ (5 ≤ c5State.fail_time + 1 ∨
        CYCLES_FAIL + 100 ≤ c5State.cycles + (c5Draw.cInc : ℚ)) →
      (update c5State c5Draw).state = 2) :=
  C5_maintenance_reset c5State c5Draw rfl (by
    norm_num [validDraws, inRange, c5State, c5Draw])

/-- C6: a Normal-state `update` whose trigger fires while the incremented
cycles are at least `CYCLES_FAIL` ends in state 2 with `fail_time = 0`
(never in Degrading); in particular a Normal machine with cycles already at
`CYCLES_FAIL` escalates directly on the triggering step. -/
theorem C6_escalation_shortcut (s : MachineState) (d : Draws)
    (hs : s.state = 0) :
    ((CYCLES_WARN ≤ s.cycles + (d.cInc : ℚ) ∨ d.rTrigger < 1/50) →
      CYCLES_FAIL ≤ s.cycles + (d.cInc : ℚ) →
      (update s d).state = 2 ∧ (update s d).fail_time = 0) ∧
    (CYCLES_FAIL ≤ s.cycles →
      (update s d).state = 2 ∧ (update s d).fail_time = 0) := by
  unfold update
  rw [if_pos hs]
  unfold stepNormal
  constructor
  · intro ht hf
    rw [if_pos ht, if_pos hf]
    exact ⟨rfl, rfl⟩
  · intro hc
    have hf : CYCLES_FAIL ≤ s.cycles + (d.cInc : ℚ) :=
      le_trans hc (le_add_of_nonneg_right (by positivity))
    have ht : CYCLES_WARN ≤ s.cycles + (d.cInc : ℚ) :=
      le_trans (by norm_num [CYCLES_WARN, CYCLES_FAIL]) hf
    rw [if_pos (Or.inl ht), if_pos hf]
    exact ⟨rfl, rfl⟩

/-- A Normal machine whose cycles are pre-set beyond `CYCLES_FAIL`
(`main.py` seeds machine 2 with 1300 cycles). -/
def c6State : MachineState :=
  { id := 2, temp := 70, vib := 2, press := 120, cycles := 1300, state := 0,
    fault_type := none, fail_time := 0, degrade_time := 0 }

/-- Witness for `C6_escalation_shortcut` at the preseeded machine. -/
theorem C6_escalation_shortcut_witness :
    ((CYCLES_WARN ≤ c6State.cycles + (c4Draw.cInc : ℚ) ∨
        c4Draw.rTrigger < 1/50) →
      CYCLES_FAIL ≤ c6State.cycles + (c4Draw.cInc : ℚ) →
      (update c6State c4Draw).state = 2 ∧
        (update c6State c4Draw).fail_time = 0) ∧
    (CYCLES_FAIL ≤ c6State.cycles →
      (update c6State c4Draw).state = 2 ∧
        (update c6State c4Draw).fail_time = 0) :=
  C6_escalation_shortcut c6State c4Draw rfl

theorem forceTemp_margin (t : ℚ) : TEMP_WARN + 5 ≤ forceTemp FaultType.temp t := by
  unfold forceTemp
  rw [if_pos rfl]
  exact le_max_right _ _

theorem forceVib_margin (v : ℚ) : VIB_WARN + 1 ≤ forceVib FaultType.vibration v := by
  unfold forceVib
  rw [if_pos rfl]
  exact le_max_right _ _

theorem forcePressHigh_margin (p : ℚ) :
    PRESS_WARN_HIGH + 5 ≤ forcePress FaultType.pressureHigh p := by
  unfold forcePress
  rw [if_pos rfl]
  exact le_max_right _ _

theorem forcePressLow_margin (p : ℚ) :
    forcePress FaultType.pressureLow p ≤ PRESS_WARN_LOW - 5 := by
  unfold forcePress
  rw [if_neg (by decide), if_pos rfl]
  exact min_le_right _ _

/-- Any reading crossing a warning bound gets label at least 1. -/
theorem label_point_pos (t v p c : ℚ) (h : warnCond t v p c) :
    1 ≤ label_point t v p c := by
  unfold label_point
  split_ifs with h1 h2
  · omega
  · omega
  · unfold warnCond at h
    exact absurd h h2

/-- C7: on a triggering Normal-state `update`, the chosen fault metric is
forced at least the fixed margin beyond its warning bound in the adverse
direction, so the returned reading's ground-truth label is at least 1. -/
theorem C7_fault_margin_label (s : MachineState) (d : Draws)
    (hs : s.state = 0)
    (ht : CYCLES_WARN ≤ s.cycles + (d.cInc : ℚ) ∨ d.rTrigger < 1/50) :
    (match d.faultChoice with
      | FaultType.temp => TEMP_WARN + 5 ≤ (update s d).temp
      | FaultType.vibration => VIB_WARN + 1 ≤ (update s d).vib
      | FaultType.pressureHigh => PRESS_WARN_HIGH + 5 ≤ (update s d).press
      | FaultType.pressureLow => (update s d).press ≤ PRESS_WARN_LOW - 5) ∧
      1 ≤ label_point (update s d).temp (update s d).vib (update s d).press
        (update s d).cycles := by
  unfold update
  rw [if_pos hs]
  unfold stepNormal
  rw [if_pos ht]
  cases hft : d.faultChoice with
  | temp =>
    split_ifs <;>
      exact ⟨forceTemp_margin _, label_point_pos _ _ _ _
        (Or.inl (le_trans (by norm_num [TEMP_WARN]) (forceTemp_margin _)))⟩
  | vibration =>
    split_ifs <;>
      exact ⟨forceVib_margin _, label_point_pos _ _ _ _
        (Or.inr (Or.inl (le_trans (by norm_num [VIB_WARN]) (forceVib_margin _))))⟩
  | pressureHigh =>
    split_ifs <;>
      exact ⟨forcePressHigh_margin _, label_point_pos _ _ _ _
        (Or.inr (Or.inr (Or.inr (Or.inl
          (le_trans (by norm_num [PRESS_WARN_HIGH]) (forcePressHigh_margin _))))))⟩
  | pressureLow =>
    split_ifs <;>
      exact ⟨forcePressLow_margin _, label_point_pos _ _ _ _
        (Or.inr (Or.inr (Or.inl
          (le_trans (forcePressLow_margin _) (by norm_num [PRESS_WARN_LOW])))))⟩

/-- Witness for `C7_fault_margin_label` at the pressure-low trigger step. -/
theorem C7_fault_margin_label_witness :
    (match cexTrigger.faultChoice with
      | FaultType.temp => TEMP_WARN + 5 ≤ (update cexInit cexTrigger).temp
      | FaultType.vibration => VIB_WARN + 1 ≤ (update cexInit cexTrigger).vib
      | FaultType.pressureHigh =>
          PRESS_WARN_HIGH + 5 ≤ (update cexInit cexTrigger).press
      | FaultType.pressureLow =>
          (update cexInit cexTrigger).press ≤ PRESS_WARN_LOW - 5) ∧
      1 ≤ label_point (update cexInit cexTrigger).temp
        (update cexInit cexTrigger).vib (update cexInit cexTrigger).press
        (update cexInit cexTrigger).cycles :=
  C7_fault_margin_label cexInit cexTrigger rfl
    (Or.inr (by norm_num [cexTrigger, cexNoise]))

/-- C8: in Degrading with a temperature fault, the drawn temperature drift
lies in `[1, 3]`, the new temperature is exactly the old plus the drift, and
hence every such `update` strictly increases temperature. -/
theorem C8_temp_drift_monotone (s : MachineState) (d : Draws)
    (h1 : s.state = 1) (hft : s.fault_type = some FaultType.temp)
    (hd : validDraws s d = true) :
    (update s d).temp = s.temp + d.gTemp ∧ 1 ≤ d.gTemp ∧ d.gTemp ≤ 3 ∧
      s.temp < (update s d).temp := by
  norm_num [validDraws, inRange, h1, hft] at hd
  obtain ⟨-, hg, -, -⟩ := hd
  have htemp : (update s d).temp = s.temp + d.gTemp := by
    unfold update
    rw [if_neg (by rw [h1]; decide), if_pos h1]
    unfold stepDegrading
    split <;> simp [degTemp, hft]
  exact ⟨htemp, hg.1.1, hg.1.2, by rw [htemp]; have := hg.1.1; linarith⟩

/-- Witness for `C8_temp_drift_monotone` at a concrete Degrading step. -/
theorem C8_temp_drift_monotone_witness :
    (update c4State c4Draw).temp = c4State.temp + c4Draw.gTemp ∧
      1 ≤ c4Draw.gTemp ∧ c4Draw.gTemp ≤ 3 ∧
      c4State.temp < (update c4State c4Draw).temp :=
  C8_temp_drift_monotone c4State c4Draw rfl rfl (by
    norm_num [validDraws, inRange, c4State, c4Draw])

/-- C9: from any program state (`state` in `{0, 1, 2}`) whose cycles field
is a non-negative whole number, an `update` either adds a drawn integer in
`[1, 5]` to cycles or (only via the FailurePredicted maintenance reset) sets
cycles to 0; the returned cycles value is again a non-negative whole
number. -/
theorem C9_cycles_whole (s : MachineState) (d : Draws)
    (hst : s.state = 0 ∨ s.state = 1 ∨ s.state = 2)
    (hd : validDraws s d = true) (n : ℕ) (hc : s.cycles = (n : ℚ)) :
    ((∃ k : ℕ, 1 ≤ k ∧ k ≤ 5 ∧ (update s d).cycles = s.cycles + (k : ℚ)) ∨
      (s.state = 2 ∧ (update s d).cycles = 0)) ∧
    ∃ m : ℕ, (update s d).cycles = (m : ℚ) := by
  simp only [validDraws, Bool.and_eq_true, decide_eq_true_eq] at hd
  obtain ⟨⟨hk1, hk5⟩, -⟩ := hd
  rcases hst with hs | hs | hs
  · have hcyc : (update s d).cycles = s.cycles + (d.cInc : ℚ) := by
      unfold update
      rw [if_pos hs]
      unfold stepNormal
      split_ifs <;> rfl
    refine ⟨Or.inl ⟨d.cInc, hk1, hk5, hcyc⟩, n + d.cInc, ?_⟩
    rw [hcyc, hc]; push_cast; ring
  · have hcyc : (update s d).cycles = s.cycles + (d.cInc : ℚ) := by
      unfold update
      rw [if_neg (by rw [hs]; decide), if_pos hs]
      unfold stepDegrading
      split_ifs <;> rfl
    refine ⟨Or.inl ⟨d.cInc, hk1, hk5, hcyc⟩, n + d.cInc, ?_⟩
    rw [hcyc, hc]; push_cast; ring
  · unfold update
    rw [if_neg (by rw [hs]; decide), if_neg (by rw [hs]; decide), if_pos hs]
    unfold stepFailure
    split_ifs with hr
    · exact ⟨Or.inr ⟨hs, rfl⟩, 0, by norm_num⟩
    · refine ⟨Or.inl ⟨d.cInc, hk1, hk5, rfl⟩, n + d.cInc, ?_⟩
      show s.cycles + (d.cInc : ℚ) = ((n + d.cInc : ℕ) : ℚ)
      rw [hc]; push_cast; ring

/-- Witness for `C9_cycles_whole` at a fresh machine and a quiet draw. -/
theorem C9_cycles_whole_witness :
    ((∃ k : ℕ, 1 ≤ k ∧ k ≤ 5 ∧
        (update cexInit cexNoise).cycles = cexInit.cycles + (k : ℚ)) ∨
      (cexInit.state = 2 ∧ (update cexInit cexNoise).cycles = 0)) ∧
    ∃ m : ℕ, (update cexInit cexNoise).cycles = (m : ℚ) :=
  C9_cycles_whole cexInit cexNoise (Or.inl rfl)
    (by norm_num [validDraws, inRange, cexInit, cexNoise]) 0
    (by norm_num [cexInit])

/-- C10: a step taken in state 1 or state 2 leaves `fault_type` unchanged,
except that the maintenance reset (the only way back to state 0) sets it to
`None`. -/
theorem C10_fault_type_frame (s : MachineState) (d : Draws)
    (hst : s.state = 1 ∨ s.state = 2) :
    ((update s d).state ≠ 0 ∧ (update s d).fault_type = s.fault_type) ∨
      ((update s d).state = 0 ∧ (update s d).fault_type = none) := by
  rcases hst with hs | hs
  · unfold update
    rw [if_neg (by rw [hs]; decide), if_pos hs]
    unfold stepDegrading
    split_ifs
    · exact Or.inl ⟨by simp, rfl⟩
    · exact Or.inl ⟨by simp [hs], rfl⟩
  · unfold update
    rw [if_neg (by rw [hs]; decide), if_neg (by rw [hs]; decide), if_pos hs]
    unfold stepFailure
    split_ifs
    · exact Or.inr ⟨rfl, rfl⟩
    · exact Or.inl ⟨by simp [hs], rfl⟩

/-- Witness for `C10_fault_type_frame` at a concrete Degrading step. -/
theorem C10_fault_type_frame_witness :
    ((update c4State c4Draw).state ≠ 0 ∧
      (update c4State c4Draw).fault_type = c4State.fault_type) ∨
      ((update c4State c4Draw).state = 0 ∧
        (update c4State c4Draw).fault_type = none) :=
  C10_fault_type_frame c4State c4Draw (Or.inl rfl)

end PredMaint
